import Mathlib

/-!
Verification development for the nuveldemo repository.

The repository ships a single Streamlit dashboard (`demo_app.py`).  Its
specification re-describes the ad-hoc display logic as a small pure
"Query Engine" (`filter`, `sortByScore`, `lookup`) over a dataset of
company records, plus boundary behaviour of the dashboard itself
(data loader fallback, hardcoded panels, the investment-score tab and
the analyze-button guard).  Below, the dashboard fragments present in
`demo_app.py` are embedded directly from the source; the Query Engine,
whose implementation is not part of the shipped file, is modelled from
the specification text (each such definition is marked).
-/

namespace NuvelDemo

/-- One row per company, following the record schema of the spec (section 3):
identifier, sector, head-counts, engineering percentage, optional funding
stage, externally computed scores, optional patent fields and region.
Machine floats of the spec are modelled as rationals. -/
structure CompanyRecord where
  id : String
  sector : String
  total_employees : Nat
  engineer_count : Nat
  engineering_percentage : ℚ
  funding_stage : Option String
  tech_strength_score : ℚ
  ip_strength_score : ℚ
  investment_score : ℚ
  patent_count : Option Nat
  patents_per_engineer : Option ℚ
  region : Option String
deriving DecidableEq, Repr

/-- A closed numeric interval used by range predicates of the filter
criteria (inclusive on both ends). -/
structure RangeOn (α : Type) where
  lo : α
  hi : α
deriving DecidableEq, Repr

/-- Modelled from the spec: `FilterCriteria` (sections 3 and 4.1) — a
conjunction of independent per-field predicates; `none` on a field means
"no constraint on that field".  The canonical predicate fields are the
allowed-sector set, the `total_employees` range, the
`engineering_percentage` range, the allowed funding-stage set, the
single-sided `patent_count` minimum and the single-sided
`ip_strength_score` minimum. -/
structure FilterCriteria where
  allowed_sectors : Option (List String)
  size_range : Option (RangeOn Nat)
  eng_range : Option (RangeOn ℚ)
  allowed_stages : Option (List String)
  patent_min : Option Nat
  ip_score_min : Option ℚ
deriving DecidableEq, Repr

/-- Modelled from the spec: aggregates of section 4.1 — count, sum and
mean of `engineer_count`, mean of `engineering_percentage`, mean of
`total_employees`, sum of `patent_count`, mean of `ip_strength_score`
and mean of `investment_score`. -/
structure Aggregates where
  count : Nat
  sum_engineer_count : Nat
  mean_engineer_count : ℚ
  mean_engineering_percentage : ℚ
  mean_total_employees : ℚ
  sum_patent_count : Nat
  mean_ip_strength_score : ℚ
  mean_investment_score : ℚ
deriving DecidableEq, Repr

/-- Modelled from the spec: the error taxonomy of `filter` (section 7):
`InvalidCriteria` is its only error condition. -/
inductive FilterError where
  | invalidCriteria
deriving DecidableEq, Repr

/-- Modelled from the spec: the arithmetic mean, with the mean of an
empty subsequence defined as `0` (not NaN, not an error). -/
def meanQ (xs : List ℚ) : ℚ :=
  if xs.length = 0 then 0 else xs.sum / xs.length

namespace QueryEngine

/-- Modelled from the spec: a record matches the criteria iff it
satisfies every active predicate (logical AND); an absent predicate, or
a predicate on a field the record does not carry, is a no-op. -/
def matchesCriteria (c : FilterCriteria) (r : CompanyRecord) : Bool :=
  (match c.allowed_sectors with
   | none => true
   | some ss => ss.contains r.sector) &&
  (match c.size_range with
   | none => true
   | some rg => decide (rg.lo ≤ r.total_employees ∧ r.total_employees ≤ rg.hi)) &&
  (match c.eng_range with
   | none => true
   | some rg => decide (rg.lo ≤ r.engineering_percentage ∧ r.engineering_percentage ≤ rg.hi)) &&
  (match c.allowed_stages, r.funding_stage with
   | some ss, some stg => ss.contains stg
   | _, _ => true) &&
  (match c.patent_min, r.patent_count with
   | some m, some pc => decide (m ≤ pc)
   | _, _ => true) &&
  (match c.ip_score_min with
   | none => true
   | some m => decide (m ≤ r.ip_strength_score))

/-- Modelled from the spec: a criteria value is well-formed when every
range predicate it carries is non-inverted (`min ≤ max`). -/
def validCriteria (c : FilterCriteria) : Bool :=
  (match c.size_range with
   | none => true
   | some rg => decide (rg.lo ≤ rg.hi)) &&
  (match c.eng_range with
   | none => true
   | some rg => decide (rg.lo ≤ rg.hi))

/-- Modelled from the spec: the aggregate summary statistics of a
matched subsequence (section 4.1), with empty means equal to `0`. -/
def computeAggregates (ms : List CompanyRecord) : Aggregates :=
  { count := ms.length
    sum_engineer_count := (ms.map CompanyRecord.engineer_count).sum
    mean_engineer_count := meanQ (ms.map (fun r => (r.engineer_count : ℚ)))
    mean_engineering_percentage := meanQ (ms.map CompanyRecord.engineering_percentage)
    mean_total_employees := meanQ (ms.map (fun r => (r.total_employees : ℚ)))
    sum_patent_count := (ms.map (fun r => (r.patent_count).getD 0)).sum
    mean_ip_strength_score := meanQ (ms.map CompanyRecord.ip_strength_score)
    mean_investment_score := meanQ (ms.map CompanyRecord.investment_score) }

/-- Modelled from the spec: `filter(dataset, criteria)` (section 4.1) —
signals `InvalidCriteria` on malformed criteria (inverted range), and
otherwise returns the stable subsequence of the dataset satisfying the
criteria together with its aggregates.  It is a pure function of its
arguments: no side effects, no hidden state, no randomness. -/
def filter (dataset : List CompanyRecord) (c : FilterCriteria) :
    Except FilterError (List CompanyRecord × Aggregates) :=
  if validCriteria c then
    let ms := dataset.filter (matchesCriteria c)
    .ok (ms, computeAggregates ms)
  else
    .error .invalidCriteria

/-- Modelled from the spec: the numeric fields a caller may sort the
matched records by (section 4.1: `tech_strength_score`,
`investment_score`, etc.). -/
inductive SortField where
  | tech_strength_score
  | ip_strength_score
  | investment_score
  | engineering_percentage
deriving DecidableEq, Repr

/-- Value of a sortable numeric field on a record. -/
def fieldVal : SortField → CompanyRecord → ℚ
  | .tech_strength_score, r => r.tech_strength_score
  | .ip_strength_score, r => r.ip_strength_score
  | .investment_score, r => r.investment_score
  | .engineering_percentage, r => r.engineering_percentage

/-- Modelled from the spec: `sortByScore(matches, field)` — a new
sequence, stably sorted by the chosen field, descending; ties keep the
original relative order.  Realised as an insertion sort that inserts a
record before the first already-placed record whose key is not greater,
so an earlier record never moves past an equal-keyed later one. -/
def sortByScore (ms : List CompanyRecord) (f : SortField) : List CompanyRecord :=
  List.insertionSort (fun a b => fieldVal f b ≤ fieldVal f a) ms

/-- Modelled from the spec: `lookup(dataset, id)` — exact search by
unique identifier, first match wins; `none` is the `NotFound` signal. -/
def lookup (dataset : List CompanyRecord) (i : String) : Option CompanyRecord :=
  dataset.find? (fun r => r.id == i)

end QueryEngine

/-- A loaded data table (a pandas DataFrame in the source); a table is a
list of rows, the empty DataFrame being the empty list. -/
abbrev Table := List (List String)

/-- The loader failure condition (`DataUnavailable` in the spec's error
taxonomy; a missing or unreadable CSV file in the source). -/
inductive LoadError where
  | dataUnavailable
deriving DecidableEq, Repr

/-- Embeds `load_demo_data` (demo_app.py lines 80 to 97): it reads four
CSV files inside a try block and, if anything raises, returns the
dictionary binding the same four keys to empty DataFrames.  The file
system is passed as an explicit read function, and the returned dict is
an association list of key-table pairs in insertion order. -/
def load_demo_data (readCsv : String → Except LoadError Table) : List (String × Table) :=
  match readCsv "synthetic_companies.csv", readCsv "synthetic_stealth.csv",
        readCsv "synthetic_patents.csv", readCsv "synthetic_patterns.csv" with
  | .ok cs, .ok stl, .ok pat, .ok pts =>
      [("companies", cs), ("stealth", stl), ("patents", pat), ("patterns", pts)]
  | _, _, _, _ =>
      [("companies", []), ("stealth", []), ("patents", []), ("patterns", [])]

/-- Embeds the `similar_companies` DataFrame literal (demo_app.py lines
268 to 273): company, match percentage, exit value. -/
def similar_companies : List (String × Nat × String) :=
  [("Stripe", 87, "$95B"), ("Plaid", 82, "$13.4B"), ("Square", 78, "$85B"),
   ("Adyen", 75, "$46B"), ("Braintree", 71, "$4.3B")]

/-- Embeds the `patterns` DataFrame literal (demo_app.py lines 278 to
283): pattern name, success rate, company count. -/
def patterns : List (String × Nat × Nat) :=
  [("Early Stripe DNA", 73, 234), ("Uber Ops-Heavy", 67, 567),
   ("Airbnb Balanced", 71, 412), ("Facebook Social", 58, 891),
   ("Enterprise B2B", 64, 1243), ("Deep Tech R&D", 81, 187)]

/-- Embeds the `stealth_data` DataFrame literal (demo_app.py lines 365
to 373): profile, previous role, transition date, location, status. -/
def stealth_data : List (String × String × String × String × String) :=
  [("Ex-Google ML Principal", "Principal @ Google Brain", "Nov 2024", "SF Bay Area", "Stealth"),
   ("Ex-Meta Staff Eng", "Staff @ Meta Reality Labs", "Oct 2024", "Seattle", "Stealth"),
   ("Ex-Apple Senior iOS", "Senior @ Apple Maps", "Sep 2024", "SF Bay Area", "Launched"),
   ("Ex-Amazon Principal", "Principal @ AWS", "Sep 2024", "NYC", "Stealth"),
   ("Ex-Netflix Senior BE", "Senior @ Netflix Core", "Aug 2024", "LA", "Raised Seed")]

/-- Embeds the Pattern Matching tab's table construction (demo_app.py
tab2, lines 247 to 290): the two tables are built from literals only.
The function receives the selected company and a random seed because the
surrounding script makes both available at render time; the source
construction references neither. -/
def patternMatchingTables (selectedCompany : String) (rngSeed : Nat) :
    List (String × Nat × String) × List (String × Nat × Nat) :=
  (similar_companies, patterns)

/-- Embeds the Stealth Tracker tab's table construction (demo_app.py
tab4, lines 365 to 373); like the Pattern Matching tab it is a literal,
referencing neither the selected company nor any random draw. -/
def stealthTrackerTable (selectedCompany : String) (rngSeed : Nat) :
    List (String × String × String × String × String) :=
  stealth_data

/-- Embeds the Investment Score tab's overall score (demo_app.py line
415): Python `int((tech_score + pattern_score + patent_score) / 3)`
truncates the nonnegative quotient, i.e. natural division by 3. -/
def overallScore (tech_score pattern_score patent_score : Nat) : Nat :=
  (tech_score + pattern_score + patent_score) / 3

/-- The three exclusive threshold branches of the Investment Score tab
(demo_app.py lines 427 to 432). -/
inductive ScoreBranch where
  | strongSignals
  | mixedSignals
  | belowThreshold
deriving DecidableEq, Repr

/-- Embeds the threshold dispatch of tab5 (demo_app.py lines 427 to
432): success message above 80, warning above 60, error otherwise. -/
def scoreBranch (overall : Nat) : ScoreBranch :=
  if overall > 80 then .strongSignals
  else if overall > 60 then .mixedSignals
  else .belowThreshold

/-- The Streamlit session state fields the analyze flow touches
(demo_app.py lines 100 to 103): `selected_company` starts as None,
`analysis_run` starts as False. -/
structure SessionState where
  selected_company : Option String
  analysis_run : Bool
deriving DecidableEq, Repr

/-- Python truthiness of the optional `selected_company` value: None and
the empty string are falsy, any other string is truthy. -/
def truthyStr : Option String → Bool
  | none => false
  | some s => !(s == "")

/-- Embeds the interaction handler (demo_app.py lines 153 to 155): when
the Analyze button is pressed or a demo company is selected, the session
stores the search text (on button press) or the demo choice, and marks
the analysis as run; `or` on the demo string is Python truthiness. -/
def updateOnInteract (analyze_button : Bool) (company_search selected_demo : String)
    (s : SessionState) : SessionState :=
  if analyze_button || !(selected_demo == "") then
    { selected_company := some (if analyze_button then company_search else selected_demo)
      analysis_run := true }
  else s

/-- Embeds the render guard (demo_app.py line 158): the analysis results
section is rendered iff `analysis_run` holds and `selected_company` is
truthy. -/
def rendersAnalysis (s : SessionState) : Bool :=
  s.analysis_run && truthyStr s.selected_company

/-- Concrete record used by witnesses (the fintech row of the spec's
concrete scenario in section 8). -/
def rA : CompanyRecord :=
  { id := "A", sector := "fintech", total_employees := 20, engineer_count := 15,
    engineering_percentage := 75, funding_stage := none,
    tech_strength_score := 80, ip_strength_score := 70, investment_score := 75,
    patent_count := none, patents_per_engineer := none, region := none }

/-- Concrete record used by witnesses (the health row of the spec's
concrete scenario in section 8). -/
def rB : CompanyRecord :=
  { id := "B", sector := "health", total_employees := 200, engineer_count := 40,
    engineering_percentage := 20, funding_stage := none,
    tech_strength_score := 60, ip_strength_score := 50, investment_score := 55,
    patent_count := none, patents_per_engineer := none, region := none }

/-- Concrete two-record dataset used by witnesses. -/
def Dex : List CompanyRecord := [rA, rB]

/-- Criteria with no active predicate (matches everything). -/
def cAll : FilterCriteria :=
  { allowed_sectors := none, size_range := none, eng_range := none,
    allowed_stages := none, patent_min := none, ip_score_min := none }

/-- Criteria with an empty allowed-sector set (matches nothing). -/
def cNoSector : FilterCriteria :=
  { allowed_sectors := some [], size_range := none, eng_range := none,
    allowed_stages := none, patent_min := none, ip_score_min := none }

/-- Criteria with an inverted employee range (min greater than max). -/
def cInverted : FilterCriteria :=
  { allowed_sectors := none, size_range := some ⟨500, 100⟩, eng_range := none,
    allowed_stages := none, patent_min := none, ip_score_min := none }

/-- C1: for every fixed dataset and criteria, evaluating the filter
operation twice with identical arguments yields bit-identical results;
the engine is a pure function of its inputs with no hidden randomness,
so the scores it reports are a deterministic function of the inputs. -/
theorem filter_deterministic (D : List CompanyRecord) (c : FilterCriteria) :
    QueryEngine.filter D c = QueryEngine.filter D c ∧
    (QueryEngine.filter D c).toOption = (QueryEngine.filter D c).toOption :=
  ⟨rfl, rfl⟩

/-- C2: with valid (non-inverted) ranges, `filter` succeeds and its
matches are a sublist of the dataset: every returned record is an
element of the dataset, nothing else appears, and the relative order of
the returned records is their relative order in the dataset. -/
theorem filter_sublist_of_valid (D : List CompanyRecord) (c : FilterCriteria)
    (h : QueryEngine.validCriteria c = true) :
    ∃ ms ag, QueryEngine.filter D c = .ok (ms, ag) ∧ List.Sublist ms D := by
  refine ⟨D.filter (QueryEngine.matchesCriteria c),
    QueryEngine.computeAggregates (D.filter (QueryEngine.matchesCriteria c)),
    ?_, List.filter_sublist D⟩
  simp [QueryEngine.filter, h]

/-- C2 witness: on the concrete two-record dataset with unconstrained
criteria, filtering succeeds with a sublist of the dataset. -/
theorem filter_sublist_of_valid_witness :
    QueryEngine.validCriteria cAll = true ∧
    ∃ ms ag, QueryEngine.filter Dex cAll = .ok (ms, ag) ∧ List.Sublist ms Dex :=
  ⟨rfl, filter_sublist_of_valid Dex cAll rfl⟩

/-- C3: criteria with an empty allowed-sector set match nothing: filter
returns an empty matches sequence, an aggregate count of 0, and every
aggregate mean equal to 0 (not NaN, not an error). -/
theorem filter_matches_nothing (D : List CompanyRecord) (c : FilterCriteria)
    (hv : QueryEngine.validCriteria c = true) (hs : c.allowed_sectors = some []) :
    ∃ ag, QueryEngine.filter D c = .ok ([], ag) ∧ ag.count = 0 ∧
      ag.mean_engineer_count = 0 ∧ ag.mean_engineering_percentage = 0 ∧
      ag.mean_total_employees = 0 ∧ ag.mean_ip_strength_score = 0 ∧
      ag.mean_investment_score = 0 := by
  have hm : ∀ r, QueryEngine.matchesCriteria c r = false := by
    intro r
    unfold QueryEngine.matchesCriteria
    rw [hs]
    simp
  have hfilter : D.filter (QueryEngine.matchesCriteria c) = [] :=
    List.filter_eq_nil_iff.mpr (fun a _ => by simp [hm a])
  refine ⟨QueryEngine.computeAggregates [], ?_, rfl, rfl, rfl, rfl, rfl, rfl⟩
  simp [QueryEngine.filter, hv, hfilter]

/-- C3 witness: on the concrete dataset, the empty-sector criteria give
an empty match list with zero count and zero means. -/
theorem filter_matches_nothing_witness :
    QueryEngine.validCriteria cNoSector = true ∧
    cNoSector.allowed_sectors = some [] ∧
    ∃ ag, QueryEngine.filter Dex cNoSector = .ok ([], ag) ∧ ag.count = 0 ∧
      ag.mean_engineer_count = 0 ∧ ag.mean_engineering_percentage = 0 ∧
      ag.mean_total_employees = 0 ∧ ag.mean_ip_strength_score = 0 ∧
      ag.mean_investment_score = 0 :=
  ⟨rfl, rfl, filter_matches_nothing Dex cNoSector rfl rfl⟩

/-- C4: over a dataset with unique identifiers, `lookup` is exact:
looking up the id of a record of the dataset returns exactly that
record, and looking up an id carried by no record returns the NotFound
signal, never a partial or fuzzy match. -/
theorem lookup_roundtrip (D : List CompanyRecord)
    (hu : (D.map CompanyRecord.id).Nodup) :
    (∀ r ∈ D, QueryEngine.lookup D r.id = some r) ∧
    (∀ i, i ∉ D.map CompanyRecord.id → QueryEngine.lookup D i = none) := by
  constructor
  · intro r hr
    induction D with
    | nil => cases hr
    | cons x T ih =>
      rw [List.map_cons, List.nodup_cons] at hu
      rcases List.mem_cons.mp hr with rfl | hrT
      · unfold QueryEngine.lookup
        exact List.find?_cons_of_pos _ (by simp)
      · have hne : (x.id == r.id) = false := by
          simp only [beq_eq_false_iff_ne, ne_eq]
          intro he
          apply hu.1
          rw [he]
          exact List.mem_map_of_mem CompanyRecord.id hrT
        unfold QueryEngine.lookup at ih ⊢
        rw [List.find?_cons_of_neg _ (by simp [hne]), ih hu.2 hrT]
  · intro i hi
    unfold QueryEngine.lookup
    refine List.find?_eq_none.mpr (fun x hx => ?_)
    simp only [beq_iff_eq]
    intro he
    exact hi (he ▸ List.mem_map_of_mem CompanyRecord.id hx)

/-- C4 witness: on the concrete dataset lookup of record A's id returns
record A and lookup of an absent id returns none. -/
theorem lookup_roundtrip_witness :
    (Dex.map CompanyRecord.id).Nodup ∧
    QueryEngine.lookup Dex rA.id = some rA ∧
    QueryEngine.lookup Dex "absent" = none := by
  have hids : Dex.map CompanyRecord.id = ["A", "B"] := rfl
  have hu : (Dex.map CompanyRecord.id).Nodup := by rw [hids]; decide
  have h := lookup_roundtrip Dex hu
  exact ⟨hu, h.1 rA (by simp [Dex]), h.2 "absent" (by rw [hids]; decide)⟩

/-- Key-filtered insertion: inserting a record into a list keeps, for
every key value, the key-filtered subsequence, with the inserted record
in front when it carries that key.  This holds because the insertion
point is before the first record whose key is not strictly greater. -/
theorem filter_key_orderedInsert (f : QueryEngine.SortField) (v : ℚ) (x : CompanyRecord) :
    ∀ l : List CompanyRecord,
      (List.orderedInsert (fun a b => QueryEngine.fieldVal f b ≤ QueryEngine.fieldVal f a) x
        l).filter (fun r => decide (QueryEngine.fieldVal f r = v))
      = if QueryEngine.fieldVal f x = v
        then x :: l.filter (fun r => decide (QueryEngine.fieldVal f r = v))
        else l.filter (fun r => decide (QueryEngine.fieldVal f r = v)) := by
  intro l
  induction l with
  | nil =>
    by_cases hx : QueryEngine.fieldVal f x = v <;>
      simp [List.orderedInsert, hx]
  | cons y l ih =>
    rw [List.orderedInsert]
    by_cases hxy : QueryEngine.fieldVal f y ≤ QueryEngine.fieldVal f x
    · rw [if_pos hxy]
      by_cases hx : QueryEngine.fieldVal f x = v <;>
        simp [List.filter_cons, hx]
    · rw [if_neg hxy]
      by_cases hx : QueryEngine.fieldVal f x = v
      · have hy : ¬ QueryEngine.fieldVal f y = v := by
          intro he
          exact hxy (le_of_eq (by rw [he, hx]))
        simp [List.filter_cons, hy, hx, ih]
      · by_cases hy : QueryEngine.fieldVal f y = v <;>
          simp [List.filter_cons, hy, hx, ih]

/-- C5: `sortByScore` sorts descending by the chosen field and is
stable: for every key value, the subsequence of records carrying that
value is unchanged, so two records with equal field values keep their
input relative order; the output is a permutation of the input. -/
theorem sortByScore_sorted_stable (l : List CompanyRecord) (f : QueryEngine.SortField) :
    List.Sorted (fun a b => QueryEngine.fieldVal f b ≤ QueryEngine.fieldVal f a)
      (QueryEngine.sortByScore l f) ∧
    List.Perm (QueryEngine.sortByScore l f) l ∧
    ∀ v : ℚ,
      (QueryEngine.sortByScore l f).filter (fun r => decide (QueryEngine.fieldVal f r = v))
      = l.filter (fun r => decide (QueryEngine.fieldVal f r = v)) := by
  refine ⟨?_, List.perm_insertionSort _ l, ?_⟩
  · haveI ht : IsTotal CompanyRecord
        (fun a b => QueryEngine.fieldVal f b ≤ QueryEngine.fieldVal f a) :=
      ⟨fun a b => le_total _ _⟩
    haveI htr : IsTrans CompanyRecord
        (fun a b => QueryEngine.fieldVal f b ≤ QueryEngine.fieldVal f a) :=
      ⟨fun a b c h1 h2 => le_trans h2 h1⟩
    exact List.sorted_insertionSort _ l
  · intro v
    induction l with
    | nil => rfl
    | cons x l ih =>
      unfold QueryEngine.sortByScore at ih ⊢
      rw [show List.insertionSort
            (fun a b => QueryEngine.fieldVal f b ≤ QueryEngine.fieldVal f a) (x :: l)
          = List.orderedInsert
              (fun a b => QueryEngine.fieldVal f b ≤ QueryEngine.fieldVal f a) x
              (List.insertionSort
                (fun a b => QueryEngine.fieldVal f b ≤ QueryEngine.fieldVal f a) l)
          from rfl,
        filter_key_orderedInsert, ih, List.filter_cons]
      by_cases hx : QueryEngine.fieldVal f x = v <;> simp [hx]

/-- C6: for criteria containing an inverted range (min greater than max
on a range predicate), `filter` signals InvalidCriteria; it never
returns an ok result (in particular never a silent empty one) for such
criteria, and InvalidCriteria on malformed criteria is the only error
condition of `filter`. -/
theorem filter_inverted_range (D : List CompanyRecord) (c : FilterCriteria)
    (h : (∃ rg, c.size_range = some rg ∧ rg.hi < rg.lo) ∨
         (∃ rg, c.eng_range = some rg ∧ rg.hi < rg.lo)) :
    QueryEngine.filter D c = .error FilterError.invalidCriteria ∧
    (∀ ms ag, QueryEngine.filter D c ≠ .ok (ms, ag)) ∧
    ∀ (D' : List CompanyRecord) (c' : FilterCriteria) (e : FilterError),
      QueryEngine.filter D' c' = .error e →
        e = FilterError.invalidCriteria ∧ QueryEngine.validCriteria c' = false := by
  have hinv : QueryEngine.validCriteria c = false := by
    unfold QueryEngine.validCriteria
    rcases h with ⟨rg, hrg, hlt⟩ | ⟨rg, hrg, hlt⟩ <;>
      rw [hrg] <;> simp [not_le.mpr hlt]
  refine ⟨by simp [QueryEngine.filter, hinv], ?_, ?_⟩
  · intro ms ag
    simp [QueryEngine.filter, hinv]
  · intro D' c' e he
    by_cases hv : QueryEngine.validCriteria c' = true
    · simp [QueryEngine.filter, hv] at he
    · rw [Bool.not_eq_true] at hv
      cases e
      exact ⟨rfl, hv⟩

/-- C6 witness: the criteria with employee range [500, 100] are rejected
with InvalidCriteria on the concrete dataset. -/
theorem filter_inverted_range_witness :
    (∃ rg, cInverted.size_range = some rg ∧ rg.hi < rg.lo) ∧
    QueryEngine.filter Dex cInverted = .error FilterError.invalidCriteria :=
  ⟨⟨⟨500, 100⟩, rfl, by decide⟩,
    (filter_inverted_range Dex cInverted (Or.inl ⟨⟨500, 100⟩, rfl, by decide⟩)).1⟩

/-- C7: when any of the four CSV reads fails, `load_demo_data` does not
propagate the failure: it returns the mapping with the same four keys
(companies, stealth, patents, patterns), each bound to an empty table. -/
theorem load_demo_data_fallback (readCsv : String → Except LoadError Table)
    (h : (∃ e, readCsv "synthetic_companies.csv" = .error e) ∨
         (∃ e, readCsv "synthetic_stealth.csv" = .error e) ∨
         (∃ e, readCsv "synthetic_patents.csv" = .error e) ∨
         (∃ e, readCsv "synthetic_patterns.csv" = .error e)) :
    load_demo_data readCsv =
      [("companies", ([] : Table)), ("stealth", []), ("patents", []), ("patterns", [])] := by
  unfold load_demo_data
  cases h1 : readCsv "synthetic_companies.csv" <;>
    cases h2 : readCsv "synthetic_stealth.csv" <;>
      cases h3 : readCsv "synthetic_patents.csv" <;>
        cases h4 : readCsv "synthetic_patterns.csv" <;>
          simp_all

/-- C7 witness: with every file unreadable the loader returns the four
empty tables. -/
theorem load_demo_data_fallback_witness :
    load_demo_data (fun _ => .error .dataUnavailable) =
      [("companies", ([] : Table)), ("stealth", []), ("patents", []), ("patterns", [])] :=
  load_demo_data_fallback (fun _ => .error .dataUnavailable)
    (Or.inl ⟨.dataUnavailable, rfl⟩)

/-- C8: the Pattern Matching and Stealth Tracker panels are static
hardcoded tables — their contents do not depend on the selected company
or on the per-run random seed, and equal fixed literal constants. -/
theorem static_panels (c c' : String) (g g' : Nat) :
    patternMatchingTables c g = patternMatchingTables c' g' ∧
    stealthTrackerTable c g = stealthTrackerTable c' g' ∧
    patternMatchingTables c g = (similar_companies, patterns) ∧
    stealthTrackerTable c g = stealth_data :=
  ⟨rfl, rfl, rfl, rfl⟩

/-- C9: with component scores drawn from [65,92], [70,95] and [60,85],
the overall score always lies in [65,90]; hence it always exceeds 60 and
the "Below typical success thresholds" branch is unreachable. -/
theorem overall_score_bounds (t p q : Nat)
    (ht1 : 65 ≤ t) (ht2 : t ≤ 92) (hp1 : 70 ≤ p) (hp2 : p ≤ 95)
    (hq1 : 60 ≤ q) (hq2 : q ≤ 85) :
    65 ≤ overallScore t p q ∧ overallScore t p q ≤ 90 ∧
    60 < overallScore t p q ∧
    scoreBranch (overallScore t p q) ≠ ScoreBranch.belowThreshold := by
  have h65 : 65 ≤ overallScore t p q := by unfold overallScore; omega
  have h90 : overallScore t p q ≤ 90 := by unfold overallScore; omega
  have h60 : 60 < overallScore t p q := by omega
  refine ⟨h65, h90, h60, ?_⟩
  unfold scoreBranch
  split_ifs <;> simp

/-- C9 witness: at the lowest component scores 65, 70, 60 the overall
score is within bounds and the error branch is not taken. -/
theorem overall_score_bounds_witness :
    65 ≤ overallScore 65 70 60 ∧ overallScore 65 70 60 ≤ 90 ∧
    60 < overallScore 65 70 60 ∧
    scoreBranch (overallScore 65 70 60) ≠ ScoreBranch.belowThreshold :=
  overall_score_bounds 65 70 60 (by decide) (by decide) (by decide)
    (by decide) (by decide) (by decide)

/-- C10: pressing Analyze with an empty search box stores the empty
string as the selected company and the analysis section is not rendered;
in general the analysis section renders only for a non-empty selected
company. -/
theorem analyze_empty_search (s : SessionState) (d : String) :
    (updateOnInteract true "" d s).selected_company = some "" ∧
    rendersAnalysis (updateOnInteract true "" d s) = false ∧
    ∀ s' : SessionState, rendersAnalysis s' = true →
      ∃ c, s'.selected_company = some c ∧ c ≠ "" := by
  refine ⟨rfl, rfl, ?_⟩
  intro s' hr
  unfold rendersAnalysis at hr
  cases hsel : s'.selected_company with
  | none => rw [hsel] at hr; simp [truthyStr] at hr
  | some c =>
    refine ⟨c, rfl, ?_⟩
    rw [hsel] at hr
    simp [truthyStr] at hr
    exact hr.2

/-- C10 witness: concrete instance of the empty-search guard, with the
rendering implication discharged on a concrete rendering state. -/
theorem analyze_empty_search_witness :
    (updateOnInteract true "" "Stripe" ⟨none, false⟩).selected_company = some "" ∧
    rendersAnalysis (updateOnInteract true "" "Stripe" ⟨none, false⟩) = false ∧
    ∃ c, (⟨some "Stripe", true⟩ : SessionState).selected_company = some c ∧ c ≠ "" := by
  have h := analyze_empty_search ⟨none, false⟩ "Stripe"
  exact ⟨h.1, h.2.1, h.2.2 ⟨some "Stripe", true⟩ (by decide)⟩

end NuvelDemo
